import Mathlib

/-!
Verification of the jarvis conversational agent (superintendent2521/jarvis).

Shallow embedding of the tool-calling orchestration core:
  * `src/tool_manager.py`  — `ToolManager.execute_tool`, tool lookup;
  * `src/conversation.py`  — `ConversationManager` and its append/reset operations;
  * `src/main.py`          — `OpenRouterAgent.process_tool_calls`,
    `OpenRouterAgent._inject_tool_instructions`, `OpenRouterAgent.chat`.

Modelling conventions:
  * Python values that flow through the core (tool arguments, tool results)
    are modelled by `PyVal`; JSON numbers that occur in the scenarios are
    integers, so numbers are modelled as `Int`.
  * A Python function call that may raise is modelled as `Except String α`
    where the `String` is `str(e)` of the raised exception.
  * `json.loads` is Python standard-library code, external to the repository;
    it is threaded through the embedding as a parameter
    `parse : String → Except String ArgMap` (success = a parsed JSON object,
    error = the decode-exception text).
  * The remote completion collaborator (`OpenRouterClient.chat_completion`)
    is external; it is a parameter `completion : Nat → List Message →
    Except String ChatMessage`, receiving the number of calls made so far and
    the message list that `chat` sends, and returning one assistant message or
    raising.
  * The `while` loop of `chat` runs at most `max_tool_iterations` times; it is
    embedded as structural recursion on the remaining iteration budget, with
    budget 0 producing the `while ... else` sentinel.
-/

namespace Jarvis

/-- A Python value as it flows through the tool layer: an int, a string, or
`None`.  (JSON numbers in the verified scenarios are integers.) -/
inductive PyVal
  | vint (n : Int)
  | vstr (s : String)
  | vnone
deriving DecidableEq, Repr

/-- Python `str(...)` on the values of `PyVal`; used by
`ConversationManager.add_tool_result`, which stringifies every result. -/
def pyStr : PyVal → String
  | .vint n => toString n
  | .vstr s => s
  | .vnone => "None"

/-- One tool call carried by an assistant message, as produced by the
completion API: `tool_call.id`, `tool_call.type`, `tool_call.function.name`
and `tool_call.function.arguments` (a JSON text). -/
structure ToolCall where
  id : String
  type : String
  fname : String
  farguments : String
deriving DecidableEq, Repr

/-- The completion response message (`ChatCompletionMessage`): role,
optional content, optional list of tool calls. -/
structure ChatMessage where
  role : String := "assistant"
  content : Option String := none
  tool_calls : Option (List ToolCall) := none
deriving DecidableEq, Repr

/-- One stored message of the conversation transcript.  The Python store
keeps plain dicts with varying keys; an absent key is `none` here. -/
structure Message where
  role : String
  content : Option String := none
  name : Option String := none
  tool_call_id : Option String := none
  tool_calls : Option (List ToolCall) := none
deriving DecidableEq, Repr

/-- A parsed JSON object used as keyword arguments: `json.loads` output. -/
abbrev ArgMap := List (String × PyVal)

/-- A tool handler: called with the parsed keyword arguments, it either
returns a value or raises (error text = `str(e)`).  Keyword-binding failures
(missing/extra/misnamed keys) happen at the call site inside
`execute_tool`'s `try`, so they are part of the handler's error outcome. -/
abbrev Handler := ArgMap → Except String PyVal

/-- `ToolManager`: the registry's `self.tools` dict as an association list
from tool name to handler (tool names are unique after loading). -/
structure ToolManager where
  tools : List (String × Handler)

/-- Dict lookup `self.tools[tool_name]` / membership `tool_name in self.tools`. -/
def lookupTool (tm : ToolManager) (tool_name : String) : Option Handler :=
  (tm.tools.find? (fun p => p.1 = tool_name)).map (fun p => p.2)

/-- `ToolManager.get_available_tools`: `list(self.tools.keys())`. -/
def get_available_tools (tm : ToolManager) : List String :=
  tm.tools.map (fun p => p.1)

/-- `ToolManager.execute_tool` (src/tool_manager.py, lines 104-113):
raises `ValueError("Tool {name} not found")` when the name is unregistered;
otherwise calls the handler inside `try`, converting any handler exception
into the string result `"Error executing tool {name}: {e}"`. -/
def execute_tool (tm : ToolManager) (tool_name : String) (arguments : ArgMap) :
    Except String PyVal :=
  match lookupTool tm tool_name with
  | none => .error ("Tool " ++ tool_name ++ " not found")
  | some tool_func =>
    match tool_func arguments with
    | .ok r => .ok r
    | .error e => .ok (.vstr ("Error executing tool " ++ tool_name ++ ": " ++ e))

/-- `execute_tool` raised an exception (as opposed to returning). -/
def isRaise (r : Except String PyVal) : Bool :=
  match r with
  | .error _ => true
  | .ok _ => false

/-- `ConversationManager` (src/conversation.py): the system prompt and the
message list. -/
structure ConversationManager where
  system_prompt : String
  messages : List Message
deriving DecidableEq, Repr

/-- The default system prompt of `ConversationManager.__init__`. -/
def default_system_prompt : String :=
  "You are a helpful AI assistant with access to various tools."

/-- `ConversationManager.reset_conversation`: replace the history with a
single system message holding the current prompt. -/
def reset_conversation (c : ConversationManager) : ConversationManager :=
  { c with messages := [{ role := "system", content := some c.system_prompt }] }

/-- `ConversationManager.__init__(system_prompt)`: store the prompt, then
`reset_conversation`. -/
def ConversationManager.init (system_prompt : String) : ConversationManager :=
  reset_conversation { system_prompt := system_prompt, messages := [] }

/-- `ConversationManager.set_system_prompt`: update the prompt and reset. -/
def set_system_prompt (c : ConversationManager) (prompt : String) :
    ConversationManager :=
  reset_conversation { c with system_prompt := prompt }

/-- `ConversationManager.add_user_message`. -/
def add_user_message (c : ConversationManager) (content : String) :
    ConversationManager :=
  { c with messages := c.messages ++ [{ role := "user", content := some content }] }

/-- `ConversationManager.add_assistant_message`: records role and content;
the `tool_calls` key is added only when the attribute is present and truthy
(a non-empty list). -/
def add_assistant_message (c : ConversationManager) (m : ChatMessage) :
    ConversationManager :=
  { c with messages := c.messages ++
      [{ role := m.role, content := m.content,
         tool_calls :=
           match m.tool_calls with
           | some (tc :: rest) => some (tc :: rest)
           | _ => none }] }

/-- `ConversationManager.add_tool_result`: appends a `role = "tool"` message
with the call id, the tool name, and `str(result)` as content. -/
def add_tool_result (c : ConversationManager) (tool_call_id tool_name : String)
    (result : PyVal) : ConversationManager :=
  { c with messages := c.messages ++
      [{ role := "tool", tool_call_id := some tool_call_id,
         name := some tool_name, content := some (pyStr result) }] }

/-- `ConversationManager.get_messages` returns `self.messages.copy()`; in
this functional model the returned value is the list itself (the aliasing
behaviour of the shallow copy is modelled separately by the reference model
below). -/
def get_messages (c : ConversationManager) : List Message :=
  c.messages

/-- The synthetic instruction message built by
`OpenRouterAgent._tool_instruction_system_message` from the registry's JSON
text `t`. -/
def instruction_message (t : String) : Message :=
  { role := "system", name := some "tool_instructions",
    content := some
      ("When you decide a tool is required, respond with a tool call JSON payload that matches the following schema exactly:\n"
        ++ t) }

/-- `OpenRouterAgent._tool_instruction_system_message` (src/main.py): `None`
when `self.tool_instruction_message` is falsy (absent or empty), otherwise a
system message tagged `name = "tool_instructions"` wrapping the JSON text. -/
def tool_instruction_system_message (instr : Option String) : Option Message :=
  match instr with
  | none => none
  | some t =>
    if t = "" then none
    else some (instruction_message t)

/-- The predicate of `_inject_tool_instructions`'s `already_present` check:
a system-role message carrying `name = "tool_instructions"`. -/
def isInstructionTagged (msg : Message) : Bool :=
  msg.role == "system" && msg.name == some "tool_instructions"

/-- The body of `_inject_tool_instructions`'s for-loop: copy the messages,
and right after the first system-role message append the instruction message,
reporting through the boolean whether an insertion happened. -/
def inject_go (im : Message) : List Message → List Message × Bool
  | [] => ([], false)
  | msg :: rest =>
    if msg.role == "system" then (msg :: im :: rest, true)
    else
      let r := inject_go im rest
      (msg :: r.1, r.2)

/-- `OpenRouterAgent._inject_tool_instructions` (src/main.py, lines 109-134):
no-op when there is no instruction message or one tagged
`name = "tool_instructions"` with system role is already present; otherwise
insert the instruction message after the first system message, or at the
front when no system message exists. -/
def inject_tool_instructions (instr : Option String) (messages : List Message) :
    List Message :=
  match tool_instruction_system_message instr with
  | none => messages
  | some im =>
    if messages.any isInstructionTagged then messages
    else
      let r := inject_go im messages
      if r.2 then r.1 else im :: r.1

/-- The for-loop of `OpenRouterAgent.process_tool_calls` (src/main.py,
lines 60-91) over the remaining tool calls, threading the conversation and
the `executed_tool` flag.  Per call: `json.loads` of the arguments text may
raise (uncaught here — the `Except.error` propagates); then
`execute_tool` runs inside `try`, its `ValueError` converted into a
`"Tool execution failed: {e}"` tool result.  Both branches set
`executed_tool = True`. -/
def process_calls (parse : String → Except String ArgMap) (tm : ToolManager) :
    List ToolCall → Bool → ConversationManager →
      ConversationManager × Except String Bool
  | [], executed_tool, c => (c, .ok executed_tool)
  | tc :: rest, _executed_tool, c =>
    match parse tc.farguments with
    | .error e => (c, .error e)
    | .ok tool_args =>
      match execute_tool tm tc.fname tool_args with
      | .ok result =>
        process_calls parse tm rest true (add_tool_result c tc.id tc.fname result)
      | .error e =>
        process_calls parse tm rest true
          (add_tool_result c tc.id tc.fname (.vstr ("Tool execution failed: " ++ e)))

/-- `OpenRouterAgent.process_tool_calls`: returns `False` immediately when
the message has no tool calls (absent or empty list), else runs the loop. -/
def process_tool_calls (parse : String → Except String ArgMap)
    (tm : ToolManager) (c : ConversationManager) (m : ChatMessage) :
    ConversationManager × Except String Bool :=
  match m.tool_calls with
  | none => (c, .ok false)
  | some [] => (c, .ok false)
  | some calls => process_calls parse tm calls false c

/-- The truthiness test `getattr(response, "tool_calls", None)` in `chat`:
true exactly when `tool_calls` is a present, non-empty list. -/
def hasToolCalls (m : ChatMessage) : Bool :=
  match m.tool_calls with
  | some (_ :: _) => true
  | _ => false

/-- The sentinel text of the `while ... else` branch of `chat`. -/
def max_iterations_sentinel : String :=
  "Tool execution loop exceeded maximum iterations."

/-- The `while iterations < self.max_tool_iterations` loop of
`OpenRouterAgent.chat` (src/main.py, lines 166-201), as recursion on the
remaining iteration budget, also counting completion calls made.  Arguments:
remaining budget, completion calls made so far, current conversation.
Result: (conversation, `final_response_text`, total completion calls).
Budget 0 is the `while ... else` exit (the sentinel); any exception raised by
the completion call or by `json.loads` inside `process_tool_calls` is caught
by the surrounding `except` and turned into the
`"Error communicating with OpenRouter: {e}"` text. -/
def chat_loop (parse : String → Except String ArgMap)
    (completion : Nat → List Message → Except String ChatMessage)
    (tm : ToolManager) (instr : Option String) :
    Nat → Nat → ConversationManager → ConversationManager × String × Nat
  | 0, calls, c => (c, max_iterations_sentinel, calls)
  | fuel + 1, calls, c =>
    match completion calls (inject_tool_instructions instr (get_messages c)) with
    | .error e => (c, "Error communicating with OpenRouter: " ++ e, calls + 1)
    | .ok response =>
      let c1 := add_assistant_message c response
      if hasToolCalls response then
        match process_tool_calls parse tm c1 response with
        | (c2, .error e) =>
          (c2, "Error communicating with OpenRouter: " ++ e, calls + 1)
        | (c2, .ok tools_executed) =>
          if tools_executed then
            chat_loop parse completion tm instr fuel (calls + 1) c2
          else (c2, response.content.getD "", calls + 1)
      else (c1, response.content.getD "", calls + 1)

/-- `OpenRouterAgent.chat`: append the user message once, then run the loop
with `self.max_tool_iterations = 5` (the value set in `__init__`). -/
def chat (parse : String → Except String ArgMap)
    (completion : Nat → List Message → Except String ChatMessage)
    (tm : ToolManager) (instr : Option String)
    (c : ConversationManager) (user_input : String) :
    ConversationManager × String × Nat :=
  chat_loop parse completion tm instr 5 0 (add_user_message c user_input)

/-- One append operation on the conversation store, as available between two
resets: `add_user_message`, `add_assistant_message`, `add_tool_result`. -/
inductive StoreOp
  | user (content : String)
  | assistant (m : ChatMessage)
  | toolResult (tool_call_id tool_name : String) (result : PyVal)

/-- Apply one store operation. -/
def applyOp (c : ConversationManager) : StoreOp → ConversationManager
  | .user s => add_user_message c s
  | .assistant m => add_assistant_message c m
  | .toolResult i n r => add_tool_result c i n r

/-- Apply a sequence of store operations, oldest first. -/
def applyOps (c : ConversationManager) (ops : List StoreOp) : ConversationManager :=
  ops.foldl applyOp c

/-! ### Reference-semantics model of `get_messages`

`ConversationManager.get_messages` returns `self.messages.copy()`: a *new*
Python list object holding the *same* message dict objects.  To settle the
aliasing claim this model makes the object graph explicit: message dicts and
list objects live in heaps addressed by naturals, and the store holds the
address of its list object. -/

/-- Python object heaps: message dicts and lists of message references,
plus the next fresh list address. -/
structure PyHeap where
  msgHeap : Nat → Message
  listHeap : Nat → List Nat
  nextList : Nat

/-- The store side of `ConversationManager` in the reference model: the
address of its `self.messages` list object. -/
structure ConvRef where
  messagesRef : Nat

/-- `get_messages` under reference semantics: `self.messages.copy()`
allocates a fresh list object containing the same message references and
returns its address. -/
def get_messages_ref (st : PyHeap) (c : ConvRef) : PyHeap × Nat :=
  let a := st.nextList
  ({ st with
      listHeap := fun x => if x = a then st.listHeap c.messagesRef else st.listHeap x,
      nextList := a + 1 }, a)

/-- A caller-side structural mutation of a list object (append, remove,
reorder, replace elements): rewrites the contents of the list at address
`a`, leaving every other object alone. -/
def listMutate (st : PyHeap) (a : Nat) (f : List Nat → List Nat) : PyHeap :=
  { st with listHeap := fun x => if x = a then f (st.listHeap a) else st.listHeap x }

/-- A caller-side mutation of one message dict object at address `a`. -/
def msgMutate (st : PyHeap) (a : Nat) (f : Message → Message) : PyHeap :=
  { st with msgHeap := fun x => if x = a then f (st.msgHeap x) else st.msgHeap x }

/-- The store's own message sequence as observed through the heap. -/
def storeView (st : PyHeap) (c : ConvRef) : List Message :=
  (st.listHeap c.messagesRef).map st.msgHeap

/-! ### Concrete scenario material -/

/-- `add_numbers` from `src/tools/math_tools.py`: add two numbers (JSON
numbers of the scenarios are integers). -/
def add_numbers (a b : Int) : Int := a + b

/-- The handler `add_numbers` as called with `**arguments`: Python keyword
binding requires exactly the keys `a` and `b`; any other shape raises a
`TypeError` at the call site (caught by `execute_tool`), and non-numeric
operands raise a `TypeError` from `+`. -/
def add_numbers_handler : Handler := fun arguments =>
  match arguments with
  | [(k1, .vint a), (k2, .vint b)] =>
    if k1 = "a" && k2 = "b" then .ok (.vint (add_numbers a b))
    else if k1 = "b" && k2 = "a" then .ok (.vint (add_numbers b a))
    else .error "add_numbers() got an unexpected keyword argument"
  | _ => .error "add_numbers() missing or unexpected arguments"

/-- The registry restricted to the tool the verified scenarios use:
`add_numbers` is loaded from `src/tools/math_tools.py`. -/
def scenario_tool_manager : ToolManager :=
  { tools := [("add_numbers", add_numbers_handler)] }

/-- Models `json.loads` (Python standard library, external to the repo) on
the argument texts occurring in the verified scenarios: the scenario payload
parses to the object with a = 2 and b = 3, everything else fails with a
decode error. -/
def scripted_json_loads : String → Except String ArgMap := fun s =>
  if s = "\x7b\"a\": 2, \"b\": 3\x7d" then .ok [("a", .vint 2), ("b", .vint 3)]
  else .error "Expecting value: line 1 column 1 (char 0)"

/-- The tool call of Scenario A: `add_numbers({"a": 2, "b": 3})`. -/
def scenarioA_call : ToolCall :=
  { id := "call_1", type := "function", fname := "add_numbers",
    farguments := "\x7b\"a\": 2, \"b\": 3\x7d" }

/-- The scripted completion collaborator of Scenario A: first call returns an
assistant message carrying the `add_numbers` tool call, second call returns
the plain assistant answer `"5"`. -/
def scenarioA_completion : Nat → List Message → Except String ChatMessage :=
  fun n _ =>
    if n = 0 then
      .ok { role := "assistant", content := none, tool_calls := some [scenarioA_call] }
    else
      .ok { role := "assistant", content := some "5", tool_calls := none }

/-- A scripted collaborator that requests the `add_numbers` tool call on
every completion call, never producing a final answer. -/
def always_tool_completion : Nat → List Message → Except String ChatMessage :=
  fun _ _ =>
    .ok { role := "assistant", content := none, tool_calls := some [scenarioA_call] }

/-- A malformed tool call used by the concrete run of the
malformed-arguments scenario: its `arguments` text is not JSON. -/
def c2_bad_call : ToolCall :=
  { id := "bad1", type := "function", fname := "add_numbers",
    farguments := "notjson" }

/-- The assistant message carrying only the malformed call. -/
def c2_message : ChatMessage :=
  { role := "assistant", content := none, tool_calls := some [c2_bad_call] }

/-- The store after that assistant message is recorded. -/
def c2_conv : ConversationManager :=
  add_assistant_message (ConversationManager.init "sys") c2_message

/-! ### Spec-side definitions for the refinement comparisons -/

/-- Modelled from the spec: the index of "the *first* system-role message
found" in a snapshot, if any. -/
def first_system_idx : List Message → Option Nat
  | [] => none
  | msg :: rest =>
    if msg.role == "system" then some 0
    else (first_system_idx rest).map (fun i => i + 1)

/-- Modelled from the spec: "inserts it immediately after the *first*
system-role message found; if no system-role message exists, inserts it at
the front" — insertion of `im` at the described position. -/
def spec_insert_after_first_system (im : Message) (messages : List Message) :
    List Message :=
  match first_system_idx messages with
  | some i => messages.take (i + 1) ++ im :: messages.drop (i + 1)
  | none => im :: messages

/-! ### Helper lemmas -/

/-- Every store operation appends exactly one message. -/
theorem applyOp_messages_append (c : ConversationManager) (op : StoreOp) :
    ∃ m, (applyOp c op).messages = c.messages ++ [m] := by
  cases op with
  | user s => exact ⟨_, rfl⟩
  | assistant m => exact ⟨_, rfl⟩
  | toolResult i n r => exact ⟨_, rfl⟩

/-- Append operations never change the head of a non-empty store. -/
theorem applyOps_head (ops : List StoreOp) :
    ∀ (c : ConversationManager) (m : Message), c.messages.head? = some m →
      (applyOps c ops).messages.head? = some m := by
  induction ops with
  | nil => intro c m h; exact h
  | cons op rest ih =>
    intro c m h
    apply ih
    obtain ⟨x, hx⟩ := applyOp_messages_append c op
    rw [hx, List.head?_append, h]
    rfl

/-- When every remaining call's arguments parse, the tool-call loop runs to
the end without raising and keeps `executed_tool = True`. -/
theorem process_calls_all_ok_true (parse : String → Except String ArgMap)
    (tm : ToolManager) :
    ∀ (l : List ToolCall), (∀ p ∈ l, ∃ a, parse p.farguments = .ok a) →
      ∀ c, ∃ c', process_calls parse tm l true c = (c', .ok true) := by
  intro l
  induction l with
  | nil => intro _ c; exact ⟨c, rfl⟩
  | cons p ps ih =>
    intro h c
    obtain ⟨a, ha⟩ := h p (List.mem_cons_self p ps)
    have hps := fun q hq => h q (List.mem_cons_of_mem p hq)
    cases hex : execute_tool tm p.fname a with
    | ok r =>
      obtain ⟨c', hc'⟩ := ih hps (add_tool_result c p.id p.fname r)
      exact ⟨c', by simp only [process_calls, ha, hex]; exact hc'⟩
    | error e =>
      obtain ⟨c', hc'⟩ := ih hps
        (add_tool_result c p.id p.fname (.vstr ("Tool execution failed: " ++ e)))
      exact ⟨c', by simp only [process_calls, ha, hex]; exact hc'⟩

/-- A non-empty tool-call list in which every call's arguments parse makes
`process_tool_calls`'s loop report `executed_tool = True` without raising. -/
theorem process_calls_nonempty_ok (parse : String → Except String ArgMap)
    (tm : ToolManager) (p : ToolCall) (ps : List ToolCall)
    (h : ∀ q ∈ p :: ps, ∃ a, parse q.farguments = .ok a) (c : ConversationManager) :
    ∃ c', process_calls parse tm (p :: ps) false c = (c', .ok true) := by
  obtain ⟨a, ha⟩ := h p (List.mem_cons_self p ps)
  have hps := fun q hq => h q (List.mem_cons_of_mem p hq)
  cases hex : execute_tool tm p.fname a with
  | ok r =>
    obtain ⟨c', hc'⟩ := process_calls_all_ok_true parse tm ps hps
      (add_tool_result c p.id p.fname r)
    exact ⟨c', by simp only [process_calls, ha, hex]; exact hc'⟩
  | error e =>
    obtain ⟨c', hc'⟩ := process_calls_all_ok_true parse tm ps hps
      (add_tool_result c p.id p.fname (.vstr ("Tool execution failed: " ++ e)))
    exact ⟨c', by simp only [process_calls, ha, hex]; exact hc'⟩

/-- Against a collaborator that answers every call with parseable registered
tool calls, the loop consumes its whole budget, makes one completion call
per budget unit, and ends with the sentinel. -/
theorem chat_loop_all_tools (parse : String → Except String ArgMap)
    (completion : Nat → List Message → Except String ChatMessage)
    (tm : ToolManager) (instr : Option String)
    (hyp : ∀ n msgs, ∃ m tcs, completion n msgs = .ok m
      ∧ m.tool_calls = some tcs ∧ tcs ≠ []
      ∧ ∀ p ∈ tcs, (∃ a, parse p.farguments = .ok a)
          ∧ p.fname ∈ get_available_tools tm) :
    ∀ fuel calls c, ∃ c',
      chat_loop parse completion tm instr fuel calls c
        = (c', max_iterations_sentinel, calls + fuel) := by
  intro fuel
  induction fuel with
  | zero => intro calls c; exact ⟨c, rfl⟩
  | succ fuel ih =>
    intro calls c
    obtain ⟨m, tcs, hcomp, htc, hne, hall⟩ :=
      hyp calls (inject_tool_instructions instr (get_messages c))
    obtain ⟨p, ps, hps⟩ := List.exists_cons_of_ne_nil hne
    subst hps
    have hcall : hasToolCalls m = true := by simp [hasToolCalls, htc]
    obtain ⟨c2, hc2⟩ := process_calls_nonempty_ok parse tm p ps
      (fun q hq => (hall q hq).1) (add_assistant_message c m)
    obtain ⟨c3, hc3⟩ := ih (calls + 1) c2
    refine ⟨c3, ?_⟩
    have hptc : process_tool_calls parse tm (add_assistant_message c m) m
        = (c2, .ok true) := by
      rw [process_tool_calls, htc]
      exact hc2
    simp only [chat_loop, hcomp, hcall, hptc, if_true]
    rw [hc3]
    have : calls + 1 + fuel = calls + (fuel + 1) := by omega
    rw [this]

/-- Dissection of `process_tool_calls`'s loop when it reaches a call whose
arguments do not parse: the `json.loads` exception escapes with the
transcript extended by exactly one tool result per *earlier* call. -/
theorem process_calls_error_split (parse : String → Except String ArgMap)
    (tm : ToolManager) (e : String) (tc : ToolCall)
    (hbad : parse tc.farguments = .error e) :
    ∀ (pre : List ToolCall), (∀ p ∈ pre, ∃ a, parse p.farguments = .ok a) →
      ∀ (rest : List ToolCall) (b : Bool) (c : ConversationManager),
        ∃ rs, process_calls parse tm (pre ++ tc :: rest) b c =
            ({ c with messages := c.messages ++ rs }, .error e)
          ∧ ∀ r ∈ rs, r.role = "tool" ∧ ∃ p ∈ pre, r.tool_call_id = some p.id := by
  intro pre
  induction pre with
  | nil =>
    intro _ rest b c
    refine ⟨[], ?_, ?_⟩
    · simp [process_calls, hbad]
    · intro r hr
      simp at hr
  | cons p ps ih =>
    intro hpre rest b c
    obtain ⟨a, ha⟩ := hpre p (List.mem_cons_self p ps)
    have hps : ∀ q ∈ ps, ∃ a, parse q.farguments = .ok a :=
      fun q hq => hpre q (List.mem_cons_of_mem p hq)
    cases hex : execute_tool tm p.fname a with
    | ok r =>
      obtain ⟨rs, h1, h2⟩ := ih hps rest true (add_tool_result c p.id p.fname r)
      refine ⟨{ role := "tool", tool_call_id := some p.id, name := some p.fname,
                content := some (pyStr r) } :: rs, ?_, ?_⟩
      · show process_calls parse tm (p :: (ps ++ tc :: rest)) b c = _
        simp only [process_calls, ha, hex]
        rw [h1]
        simp [add_tool_result, List.append_assoc]
      · intro r' hr'
        rcases List.mem_cons.mp hr' with h | h
        · subst h
          exact ⟨rfl, p, List.mem_cons_self p ps, rfl⟩
        · obtain ⟨hrole, q, hq, hid⟩ := h2 r' h
          exact ⟨hrole, q, List.mem_cons_of_mem p hq, hid⟩
    | error e' =>
      obtain ⟨rs, h1, h2⟩ := ih hps rest true
        (add_tool_result c p.id p.fname (.vstr ("Tool execution failed: " ++ e')))
      refine ⟨{ role := "tool", tool_call_id := some p.id, name := some p.fname,
                content := some ("Tool execution failed: " ++ e') } :: rs, ?_, ?_⟩
      · show process_calls parse tm (p :: (ps ++ tc :: rest)) b c = _
        simp only [process_calls, ha, hex]
        rw [h1]
        simp [add_tool_result, pyStr, List.append_assoc]
      · intro r' hr'
        rcases List.mem_cons.mp hr' with h | h
        · subst h
          exact ⟨rfl, p, List.mem_cons_self p ps, rfl⟩
        · obtain ⟨hrole, q, hq, hid⟩ := h2 r' h
          exact ⟨hrole, q, List.mem_cons_of_mem p hq, hid⟩

/-- When the snapshot has no system-role message, the insertion loop of
`_inject_tool_instructions` copies it unchanged and reports no insertion. -/
theorem inject_go_no_system (im : Message) :
    ∀ messages : List Message, first_system_idx messages = none →
      inject_go im messages = (messages, false) := by
  intro messages
  induction messages with
  | nil => intro _; rfl
  | cons msg rest ih =>
    intro h
    cases hrole : (msg.role == "system") with
    | true => simp [first_system_idx, hrole] at h
    | false =>
      simp only [first_system_idx, hrole, Bool.false_eq_true, if_false,
        Option.map_eq_none'] at h
      simp [inject_go, hrole, ih h]

/-- When the snapshot's first system-role message sits at index `i`, the
insertion loop of `_inject_tool_instructions` places the instruction message
right after position `i` and reports the insertion. -/
theorem inject_go_first_system (im : Message) :
    ∀ (messages : List Message) (i : Nat), first_system_idx messages = some i →
      inject_go im messages =
        (messages.take (i + 1) ++ im :: messages.drop (i + 1), true) := by
  intro messages
  induction messages with
  | nil => intro i h; simp [first_system_idx] at h
  | cons msg rest ih =>
    intro i h
    cases hrole : (msg.role == "system") with
    | true =>
      simp only [first_system_idx, hrole, if_true] at h
      rw [← Option.some_inj.mp h]
      simp [inject_go, hrole]
    | false =>
      simp only [first_system_idx, hrole, Bool.false_eq_true, if_false,
        Option.map_eq_some'] at h
      obtain ⟨j, hj, hij⟩ := h
      subst hij
      simp [inject_go, hrole, ih j hj]

/-! ### Claims -/

/-- C10: `set_system_prompt(p)` discards the entire conversation history:
afterwards the store holds exactly one system-role message whose content is
`p`, and nothing else. -/
theorem set_system_prompt_discards_history (c : ConversationManager) (p : String) :
    (set_system_prompt c p).messages = [{ role := "system", content := some p }] :=
  rfl

/-- C6: immediately after a reset the store is a single system message
carrying the (reset) prompt, and the first message's role stays `"system"`
under every sequence of append operations until the next reset. -/
theorem reset_invariant (c : ConversationManager) (ops : List StoreOp) :
    (reset_conversation c).messages =
        [{ role := "system", content := some c.system_prompt }]
    ∧ ((applyOps (reset_conversation c) ops).messages.head?.map Message.role)
        = some "system" := by
  refine ⟨rfl, ?_⟩
  have h := applyOps_head ops (reset_conversation c)
      { role := "system", content := some c.system_prompt } rfl
  rw [h]
  rfl

/-- C9: `execute_tool` raises if and only if the tool name is unregistered;
for a registered tool it always returns — the handler's value on success,
the `"Error executing tool {name}: ..."` string when the handler raises. -/
theorem execute_tool_raises_iff_unregistered (tm : ToolManager)
    (tool_name : String) (arguments : ArgMap) :
    (isRaise (execute_tool tm tool_name arguments) = true
        ↔ lookupTool tm tool_name = none)
    ∧ (∀ f, lookupTool tm tool_name = some f →
        execute_tool tm tool_name arguments =
          .ok (match f arguments with
               | .ok v => v
               | .error e =>
                 .vstr ("Error executing tool " ++ tool_name ++ ": " ++ e))) := by
  constructor
  · cases h : lookupTool tm tool_name with
    | none => simp [execute_tool, h, isRaise]
    | some f =>
      cases hf : f arguments with
      | ok r => simp [execute_tool, h, hf, isRaise]
      | error e => simp [execute_tool, h, hf, isRaise]
  · intro f hf
    cases hr : f arguments with
    | ok r => simp [execute_tool, hf, hr]
    | error e => simp [execute_tool, hf, hr]

/-- Witness for C9 at concrete inputs: an unregistered name raises, while
the registered `add_numbers` with unbindable arguments returns the error
string instead of raising. -/
theorem execute_tool_raises_iff_unregistered_witness :
    isRaise (execute_tool scenario_tool_manager "nope" []) = true
    ∧ execute_tool scenario_tool_manager "add_numbers" [] =
        .ok (.vstr "Error executing tool add_numbers: add_numbers() missing or unexpected arguments") := by
  constructor
  · exact (execute_tool_raises_iff_unregistered scenario_tool_manager "nope" []).1.mpr rfl
  · have h := (execute_tool_raises_iff_unregistered scenario_tool_manager
      "add_numbers" []).2 add_numbers_handler rfl
    exact h.trans rfl

/-- C5 (Scenario A): with `add_numbers` registered and the scripted
collaborator that first requests `add_numbers({"a": 2, "b": 3})` and then
answers `"5"`, `chat("what is 2+3?")` returns `"5"` after two completion
calls, and the store holds exactly the initial system message followed by
the user message, the tool-call assistant message, the `"5"` tool result,
and the final assistant message. -/
theorem scenarioA_chat :
    chat scripted_json_loads scenarioA_completion scenario_tool_manager
        (some "SCHEMA") (ConversationManager.init default_system_prompt)
        "what is 2+3?" =
      ({ system_prompt := default_system_prompt,
         messages :=
           [{ role := "system", content := some default_system_prompt },
            { role := "user", content := some "what is 2+3?" },
            { role := "assistant", content := none,
              tool_calls := some [scenarioA_call] },
            { role := "tool", content := some "5", name := some "add_numbers",
              tool_call_id := some "call_1" },
            { role := "assistant", content := some "5" }] },
       "5", 2) := by
  decide

/-- A one-message store for the snapshot-aliasing analysis: message object 0
is the initial system message, the store's list object is at address 0. -/
def c7_heap : PyHeap :=
  { msgHeap := fun _ => { role := "system", content := some default_system_prompt },
    listHeap := fun n => if n = 0 then [0] else [],
    nextList := 1 }

/-- The store reference of the one-message store. -/
def c7_store : ConvRef := { messagesRef := 0 }

/-- C7 counterexample: `get_messages` is a shallow copy, so mutating the
message object reached through the returned copy (here: the first message of
the snapshot) changes the store's own message sequence.  The claim that any
mutation of the returned value leaves the store unchanged is false. -/
theorem snapshot_not_independent_counterexample :
    storeView
        (msgMutate (get_messages_ref c7_heap c7_store).1
          (((get_messages_ref c7_heap c7_store).1.listHeap
              (get_messages_ref c7_heap c7_store).2).headD 999)
          (fun msg => { msg with content := some "mutated" }))
        c7_store
      ≠ storeView c7_heap c7_store := by
  decide

/-- C7 (amended): `get_messages` returns a shallow copy — a fresh list
object holding the same message references — so mutating the returned
sequence itself never affects the store's message sequence (mutating a
shared message object, by contrast, does, as the counterexample shows). -/
theorem snapshot_list_copy_independent (st : PyHeap) (c : ConvRef)
    (hfresh : c.messagesRef < st.nextList) :
    ((get_messages_ref st c).1.listHeap (get_messages_ref st c).2
        = st.listHeap c.messagesRef)
    ∧ (∀ f, storeView
          (listMutate (get_messages_ref st c).1 (get_messages_ref st c).2 f) c
        = storeView st c) := by
  have hne : c.messagesRef ≠ st.nextList := Nat.ne_of_lt hfresh
  constructor
  · simp [get_messages_ref]
  · intro f
    simp [get_messages_ref, listMutate, storeView, hne]

/-- Witness for the amended C7 at a concrete store and a concrete structural
mutation (emptying the copied list): the store's view is unchanged. -/
theorem snapshot_list_copy_independent_witness :
    c7_store.messagesRef < c7_heap.nextList
    ∧ storeView
        (listMutate (get_messages_ref c7_heap c7_store).1
          (get_messages_ref c7_heap c7_store).2 (fun _ => []))
        c7_store
      = storeView c7_heap c7_store :=
  ⟨by decide,
   (snapshot_list_copy_independent c7_heap c7_store (by decide)).2 (fun _ => [])⟩

/-- C8: an assistant message whose `tool_calls` is present but empty is
treated exactly like one with no tool calls: the loop terminates on it with
the message's text (empty when content is null), only the assistant message
itself is appended — in fact the stored record is identical — and no tool is
executed and no tool result appended. -/
theorem empty_tool_calls_terminal (parse : String → Except String ArgMap)
    (completion completion2 : Nat → List Message → Except String ChatMessage)
    (tm : ToolManager) (instr : Option String) (fuel calls : Nat)
    (c : ConversationManager) (m : ChatMessage)
    (htc : m.tool_calls = some [])
    (hcomp : ∀ msgs, completion calls msgs = .ok m)
    (hcomp2 : ∀ msgs, completion2 calls msgs = .ok { m with tool_calls := none }) :
    chat_loop parse completion tm instr (fuel + 1) calls c =
        (add_assistant_message c m, m.content.getD "", calls + 1)
    ∧ chat_loop parse completion2 tm instr (fuel + 1) calls c =
        (add_assistant_message c { m with tool_calls := none },
         m.content.getD "", calls + 1)
    ∧ add_assistant_message c m
        = add_assistant_message c { m with tool_calls := none } := by
  refine ⟨?_, ?_, ?_⟩
  · rw [chat_loop, hcomp]
    simp [hasToolCalls, htc]
  · rw [chat_loop, hcomp2]
    simp [hasToolCalls]
  · simp [add_assistant_message, htc]

/-- Witness for C8: concrete one-response scripts with an empty and an
absent `tool_calls` produce the same terminal result. -/
theorem empty_tool_calls_terminal_witness :
    chat_loop scripted_json_loads
        (fun _ _ => .ok { role := "assistant", content := some "hi there",
                          tool_calls := some [] })
        scenario_tool_manager none 4 0 (ConversationManager.init "sys") =
      (add_assistant_message (ConversationManager.init "sys")
          { role := "assistant", content := some "hi there", tool_calls := some [] },
       "hi there", 1) :=
  (empty_tool_calls_terminal scripted_json_loads
    (fun _ _ => .ok { role := "assistant", content := some "hi there",
                      tool_calls := some [] })
    (fun _ _ => .ok { role := "assistant", content := some "hi there",
                      tool_calls := none })
    scenario_tool_manager none 3 0 (ConversationManager.init "sys")
    { role := "assistant", content := some "hi there", tool_calls := some [] }
    rfl (fun _ => rfl) (fun _ => rfl)).1

/-- C3: for a tool call with parseable arguments, an unregistered tool name
or a handler that raises produces exactly one appended tool-result message
whose content is the corresponding error string (handler failures carry the
`"Error executing tool {name}: "` prefix), `process_tool_calls` reports
success (`Except.ok` — nothing is raised), and the enclosing `chat` loop
continues and returns the next response normally. -/
theorem tool_error_containment (parse : String → Except String ArgMap)
    (tm : ToolManager) (instr : Option String) (c : ConversationManager)
    (tc : ToolCall) (args : ArgMap)
    (hparse : parse tc.farguments = .ok args) :
    (lookupTool tm tc.fname = none →
      process_tool_calls parse tm c
          { role := "assistant", content := none, tool_calls := some [tc] } =
        (add_tool_result c tc.id tc.fname
            (.vstr ("Tool execution failed: " ++ ("Tool " ++ tc.fname ++ " not found"))),
         .ok true))
    ∧ (∀ f e, lookupTool tm tc.fname = some f → f args = .error e →
        process_tool_calls parse tm c
            { role := "assistant", content := none, tool_calls := some [tc] } =
          (add_tool_result c tc.id tc.fname
              (.vstr ("Error executing tool " ++ tc.fname ++ ": " ++ e)),
           .ok true))
    ∧ (∀ (completion : Nat → List Message → Except String ChatMessage)
          (fuel calls : Nat) (finalm : ChatMessage),
        (∀ msgs, completion calls msgs =
            .ok { role := "assistant", content := none, tool_calls := some [tc] }) →
        (∀ msgs, completion (calls + 1) msgs = .ok finalm) →
        finalm.tool_calls = none →
        (chat_loop parse completion tm instr (fuel + 2) calls c).2 =
          (finalm.content.getD "", calls + 2)) := by
  refine ⟨?_, ?_, ?_⟩
  · intro h
    simp [process_tool_calls, process_calls, hparse, execute_tool, h]
  · intro f e hf hr
    simp [process_tool_calls, process_calls, hparse, execute_tool, hf, hr]
  · intro completion fuel calls finalm hcomp1 hcomp2 hfin
    show (chat_loop parse completion tm instr (fuel + 1 + 1) calls c).2 =
      (finalm.content.getD "", calls + 2)
    rw [chat_loop, hcomp1]
    simp only [hasToolCalls, if_true]
    have hstep : ∀ c1 : ConversationManager,
        process_tool_calls parse tm c1
            { role := "assistant", content := none, tool_calls := some [tc] } =
          ((process_tool_calls parse tm c1
              { role := "assistant", content := none, tool_calls := some [tc] }).1,
           .ok true) := by
      intro c1
      cases hex : execute_tool tm tc.fname args with
      | ok r => simp [process_tool_calls, process_calls, hparse, hex]
      | error e => simp [process_tool_calls, process_calls, hparse, hex]
    rw [hstep]
    simp only [if_true]
    rw [chat_loop, hcomp2]
    simp [hasToolCalls, hfin]

/-- Witness for C3: the registered `add_numbers` invoked with an empty
argument object raises a binding error, which is contained as a single
tool-result message with the prefixed error text. -/
theorem tool_error_containment_witness :
    process_tool_calls (fun _ => .ok []) scenario_tool_manager
        (ConversationManager.init "sys")
        { role := "assistant", content := none,
          tool_calls := some [{ id := "id9", type := "function",
                                fname := "add_numbers", farguments := "oops" }] } =
      (add_tool_result (ConversationManager.init "sys") "id9" "add_numbers"
          (.vstr ("Error executing tool " ++ "add_numbers" ++ ": "
            ++ "add_numbers() missing or unexpected arguments")),
       .ok true) :=
  (tool_error_containment (fun _ => .ok []) scenario_tool_manager none
    (ConversationManager.init "sys")
    { id := "id9", type := "function", fname := "add_numbers", farguments := "oops" }
    [] rfl).2.1 add_numbers_handler
    "add_numbers() missing or unexpected arguments" rfl rfl

/-- C2: a tool call whose arguments are not valid JSON aborts the whole
`chat` loop on the very call that reaches it: the `json.loads` failure is
not caught in the tool-execution step, `chat` ends after this single
completion call (whatever budget remains) with the error text
`"Error communicating with OpenRouter: ..."` instead of a normal answer,
only the earlier calls of the same message got tool results, and no
tool-result message for the malformed call is ever appended. -/
theorem malformed_arguments_propagate (parse : String → Except String ArgMap)
    (completion : Nat → List Message → Except String ChatMessage)
    (tm : ToolManager) (instr : Option String) (c : ConversationManager)
    (m : ChatMessage) (fuel calls : Nat)
    (pre rest : List ToolCall) (tc : ToolCall) (e : String)
    (hm : m.tool_calls = some (pre ++ tc :: rest))
    (hpre : ∀ p ∈ pre, ∃ a, parse p.farguments = .ok a)
    (hbad : parse tc.farguments = .error e)
    (hcomp : ∀ msgs, completion calls msgs = .ok m) :
    ∃ rs,
      chat_loop parse completion tm instr (fuel + 1) calls c =
        ({ add_assistant_message c m with
            messages := (add_assistant_message c m).messages ++ rs },
         "Error communicating with OpenRouter: " ++ e, calls + 1)
      ∧ (∀ r ∈ rs, r.role = "tool" ∧ ∃ p ∈ pre, r.tool_call_id = some p.id)
      ∧ (tc.id ∉ pre.map ToolCall.id →
         (∀ msg ∈ c.messages, msg.tool_call_id ≠ some tc.id) →
         ∀ msg ∈ ((add_assistant_message c m).messages ++ rs),
           msg.tool_call_id ≠ some tc.id) := by
  obtain ⟨x, xs, hxs⟩ : ∃ x xs, pre ++ tc :: rest = x :: xs := by
    cases pre with
    | nil => exact ⟨tc, rest, rfl⟩
    | cons a as => exact ⟨a, as ++ tc :: rest, rfl⟩
  obtain ⟨rs, h1, h2⟩ := process_calls_error_split parse tm e tc hbad pre hpre rest
    false (add_assistant_message c m)
  refine ⟨rs, ?_, h2, ?_⟩
  · rw [chat_loop, hcomp]
    have hcalls : hasToolCalls m = true := by
      simp [hasToolCalls, hm, hxs]
    have hproc : process_tool_calls parse tm (add_assistant_message c m) m =
        ({ add_assistant_message c m with
            messages := (add_assistant_message c m).messages ++ rs },
         .error e) := by
      rw [process_tool_calls, hm, hxs]
      show process_calls parse tm (x :: xs) false (add_assistant_message c m) = _
      rw [← hxs]
      exact h1
    simp only [hcalls, if_true]
    rw [hproc]
  · intro hid hold msg hmsg
    rcases List.mem_append.mp hmsg with hmem | hmem
    · rcases List.mem_append.mp hmem with hmem' | hmem'
      · exact hold msg hmem'
      · have : msg.tool_call_id = none := by
          rcases List.mem_singleton.mp hmem' with rfl
          rfl
        rw [this]
        simp
    · obtain ⟨_, p, hp, hpid⟩ := h2 msg hmem
      rw [hpid]
      intro hcontra
      apply hid
      have : p.id = tc.id := by
        simpa using hcontra
      rw [← this]
      exact List.mem_map_of_mem ToolCall.id hp

/-- Witness for C2: a single malformed call (`arguments = "notjson"`) with
budget remaining makes `chat_loop` return the decode-error text after one
completion call, with no tool result for the call. -/
theorem malformed_arguments_propagate_witness :
    ∃ rs,
      chat_loop scripted_json_loads (fun _ _ => .ok c2_message)
          scenario_tool_manager none (4 + 1) 0 (ConversationManager.init "sys") =
        ({ c2_conv with messages := c2_conv.messages ++ rs },
         "Error communicating with OpenRouter: "
           ++ "Expecting value: line 1 column 1 (char 0)", 0 + 1)
      ∧ (∀ r ∈ rs, r.role = "tool" ∧
          ∃ p ∈ ([] : List ToolCall), r.tool_call_id = some p.id)
      ∧ (c2_bad_call.id ∉ ([] : List ToolCall).map ToolCall.id →
         (∀ msg ∈ (ConversationManager.init "sys").messages,
            msg.tool_call_id ≠ some c2_bad_call.id) →
         ∀ msg ∈ (c2_conv.messages ++ rs),
           msg.tool_call_id ≠ some c2_bad_call.id) :=
  malformed_arguments_propagate scripted_json_loads (fun _ _ => .ok c2_message)
    scenario_tool_manager none (ConversationManager.init "sys") c2_message
    4 0 [] [] c2_bad_call "Expecting value: line 1 column 1 (char 0)"
    rfl (by simp) rfl (fun _ => rfl)

/-- C1: against a completion collaborator that on every call returns an
assistant message carrying at least one tool call, each with parseable
arguments naming a registered tool, `chat(user_text)` terminates after
exactly `max_tool_iterations = 5` completion calls and returns the fixed
sentinel string. -/
theorem bounded_loop_sentinel (parse : String → Except String ArgMap)
    (completion : Nat → List Message → Except String ChatMessage)
    (tm : ToolManager) (instr : Option String)
    (c : ConversationManager) (user_input : String)
    (hyp : ∀ n msgs, ∃ m tcs, completion n msgs = .ok m
      ∧ m.tool_calls = some tcs ∧ tcs ≠ []
      ∧ ∀ p ∈ tcs, (∃ a, parse p.farguments = .ok a)
          ∧ p.fname ∈ get_available_tools tm) :
    (chat parse completion tm instr c user_input).2.1 =
        "Tool execution loop exceeded maximum iterations."
    ∧ (chat parse completion tm instr c user_input).2.2 = 5 := by
  obtain ⟨c', h⟩ := chat_loop_all_tools parse completion tm instr hyp 5 0
    (add_user_message c user_input)
  constructor
  · show (chat_loop parse completion tm instr 5 0
        (add_user_message c user_input)).2.1 = _
    rw [h]
    rfl
  · show (chat_loop parse completion tm instr 5 0
        (add_user_message c user_input)).2.2 = 5
    rw [h]

/-- Witness for C1: the concrete always-requesting collaborator with the
registered `add_numbers` tool drives `chat` to the sentinel after exactly
five completion calls. -/
theorem bounded_loop_sentinel_witness :
    (chat scripted_json_loads always_tool_completion scenario_tool_manager
        (some "SCHEMA") (ConversationManager.init default_system_prompt)
        "loop forever").2.1 =
      "Tool execution loop exceeded maximum iterations."
    ∧ (chat scripted_json_loads always_tool_completion scenario_tool_manager
        (some "SCHEMA") (ConversationManager.init default_system_prompt)
        "loop forever").2.2 = 5 :=
  bounded_loop_sentinel scripted_json_loads always_tool_completion
    scenario_tool_manager (some "SCHEMA")
    (ConversationManager.init default_system_prompt) "loop forever"
    (by
      intro n msgs
      refine ⟨_, [scenarioA_call], rfl, rfl, by simp, ?_⟩
      intro p hp
      rw [List.mem_singleton] at hp
      subst hp
      exact ⟨⟨[("a", .vint 2), ("b", .vint 3)], rfl⟩, by decide⟩)

/-- C4: instruction injection is a no-op when there are no tools or when an
instruction-tagged message is already present; otherwise it equals the
spec's insertion (right after the first system-role message, else at the
front) and yields exactly one instruction-tagged message; and applying it to
its own output is the identity. -/
theorem inject_instructions_idempotent (t : String) (messages : List Message) :
    inject_tool_instructions none messages = messages
    ∧ (messages.any isInstructionTagged = true →
        inject_tool_instructions (some t) messages = messages)
    ∧ (t ≠ "" → messages.any isInstructionTagged = false →
        inject_tool_instructions (some t) messages =
          spec_insert_after_first_system (instruction_message t) messages
        ∧ (inject_tool_instructions (some t) messages).countP isInstructionTagged
            = 1)
    ∧ (∀ instr, inject_tool_instructions instr
          (inject_tool_instructions instr messages)
        = inject_tool_instructions instr messages) := by
  have hcore : ∀ s : String, s ≠ "" → messages.any isInstructionTagged = false →
      inject_tool_instructions (some s) messages =
        spec_insert_after_first_system (instruction_message s) messages := by
    intro s hs hun
    simp only [inject_tool_instructions, tool_instruction_system_message,
      if_neg hs, hun, Bool.false_eq_true, if_false]
    cases hidx : first_system_idx messages with
    | none =>
      rw [inject_go_no_system (instruction_message s) messages hidx,
        spec_insert_after_first_system, hidx]
      rfl
    | some i =>
      rw [inject_go_first_system (instruction_message s) messages i hidx,
        spec_insert_after_first_system, hidx]
      rfl
  have hcount : ∀ s : String, s ≠ "" → messages.any isInstructionTagged = false →
      (spec_insert_after_first_system (instruction_message s) messages).countP
          isInstructionTagged = 1 := by
    intro s _ hun
    have hzero : messages.countP isInstructionTagged = 0 := by
      rw [List.countP_eq_zero]
      intro a ha
      exact (List.any_eq_false.mp hun) a ha
    have htag : isInstructionTagged (instruction_message s) = true := rfl
    rw [spec_insert_after_first_system]
    cases hidx : first_system_idx messages with
    | none => simp [List.countP_cons, htag, hzero]
    | some i =>
      have hsplit : messages.take (i + 1) ++ messages.drop (i + 1) = messages :=
        List.take_append_drop (i + 1) messages
      have h2 := congrArg (List.countP isInstructionTagged) hsplit
      rw [List.countP_append, hzero] at h2
      rw [List.countP_append, List.countP_cons, htag, if_pos rfl]
      omega
  refine ⟨rfl, ?_, ?_, ?_⟩
  · intro h
    by_cases ht : t = ""
    · subst ht
      rfl
    · simp [inject_tool_instructions, tool_instruction_system_message,
        if_neg ht, h]
  · intro ht hun
    exact ⟨hcore t ht hun, by rw [hcore t ht hun]; exact hcount t ht hun⟩
  · intro instr
    cases instr with
    | none => rfl
    | some s =>
      by_cases hs : s = ""
      · subst hs
        rfl
      · by_cases hany : messages.any isInstructionTagged = true
        · have hid : inject_tool_instructions (some s) messages = messages := by
            simp [inject_tool_instructions, tool_instruction_system_message,
              if_neg hs, hany]
          rw [hid, hid]
        · have hun : messages.any isInstructionTagged = false :=
            Bool.eq_false_iff.mpr hany
          have hresult := hcore s hs hun
          have hmem : instruction_message s ∈
              inject_tool_instructions (some s) messages := by
            rw [hresult, spec_insert_after_first_system]
            cases hidx : first_system_idx messages with
            | none => exact List.mem_cons_self _ _
            | some i =>
              exact List.mem_append_right _ (List.mem_cons_self _ _)
          have hany2 : (inject_tool_instructions (some s) messages).any
              isInstructionTagged = true :=
            List.any_eq_true.mpr ⟨instruction_message s, hmem, rfl⟩
          simp only [inject_tool_instructions, tool_instruction_system_message,
            if_neg hs] at hany2 ⊢
          rw [hany2]
          simp only [if_true]

/-- Witness for C4 at a concrete untagged snapshot: injecting into a single
user message puts the instruction message at the front, exactly once. -/
theorem inject_instructions_idempotent_witness :
    ("S" : String) ≠ ""
    ∧ ([{ role := "user", content := some "hi" }] : List Message).any
        isInstructionTagged = false
    ∧ inject_tool_instructions (some "S") [{ role := "user", content := some "hi" }]
        = spec_insert_after_first_system (instruction_message "S")
            [{ role := "user", content := some "hi" }]
    ∧ (inject_tool_instructions (some "S")
          [{ role := "user", content := some "hi" }]).countP isInstructionTagged
        = 1 := by
  have h := (inject_instructions_idempotent "S"
    [{ role := "user", content := some "hi" }]).2.2.1 (by decide) (by decide)
  exact ⟨by decide, by decide, h.1, h.2⟩

end Jarvis
